import Mathlib

/-!
Shallow embedding of the interactsh correlation engine.

The Go sources embedded here:
  * `pkg/storage/storage.go` — the correlation store (`Storage`,
    `CorrelationData`, `SetIDPublicKey`, `SetID`, `AddInteraction`,
    `AddInteractionWithId`, `GetInteractions`, `GetInteractionsWithId`,
    `RemoveID`).
  * `pkg/server/server.go` — `URLReflection` and `Options`.
  * the HTTP server file — the identifier-extraction loop of
    `HTTPServer.logger`, `checkToken`, `authMiddleware` and the route table
    of `NewHTTPServer`.

Go strings are modelled as `List Char`; Go's `len` on the 33-character
identifier labels and the rune-level reversal in `URLReflection` are both
character-level here.  Go's `nil` mutex pointer in
`CorrelationData.dataMutex` is modelled by a `Bool` field recording whether
the pointer is non-nil; calling `Lock` on a nil pointer is a runtime panic,
modelled by the `GoResult.panic` outcome.
-/

/-- A Go string, modelled as a list of characters. -/
abbrev GoStr := List Char

/-- Go `strings.Split(host, ".")`: split on every dot; the empty string
splits to one empty label, matching Go's behaviour. -/
def splitDot : GoStr → List GoStr
  | [] => [[]]
  | c :: rest =>
    if c = '.' then [] :: splitDot rest
    else
      match splitDot rest with
      | [] => [[c]]
      | l :: ls => (c :: l) :: ls

/-- Go `strings.Join(parts, ".")`. -/
def joinDot : List GoStr → GoStr
  | [] => []
  | [l] => l
  | l :: rest => l ++ '.' :: joinDot rest

/-- Loop body of `URLReflection` (server.go): `if len(part) == 33 { randomID = part }`. -/
def pick33 (acc part : GoStr) : GoStr :=
  if part.length = 33 then part else acc

/-- `URLReflection` from `pkg/server/server.go` lines 54-70: scan the
dot-separated labels, keep the last one of length 33, return it reversed
(rune-level reversal), or the empty string when none matched. -/
def URLReflection (URL : GoStr) : GoStr :=
  let randomID := (splitDot URL).foldl pick33 []
  if randomID = [] then [] else randomID.reverse

/-- The identifier-scan loop of `HTTPServer.logger` (HTTP server file,
lines 120-128).  `all` is the full `parts` slice (referenced by the loop
body through `parts[:i+1]` and `len(parts)`), the second argument is the
remaining suffix being iterated, `i` the current index, and the
accumulator is the pair `(uniqueID, fullID)`. -/
def scanGo (all : List GoStr) : List GoStr → Nat → GoStr × GoStr → GoStr × GoStr
  | [], _, acc => acc
  | part :: rest, i, acc =>
    scanGo all rest (i + 1)
      (if part.length = 33 then
        (part, if i + 1 ≤ all.length then joinDot (all.take (i + 1)) else part)
      else acc)

/-- The `(uniqueID, fullID)` pair computed by `HTTPServer.logger` for a
request host: run the scan loop over `strings.Split(r.Host, ".")` starting
from empty strings. -/
def hostScan (host : GoStr) : GoStr × GoStr :=
  scanGo (splitDot host) (splitDot host) 0 ([], [])

/-- The guarded extraction of `HTTPServer.logger` lines 129-131: when
`uniqueID` is nonempty the interaction is built with
`correlationID := uniqueID[:20]` and `fullID`; otherwise nothing is
extracted. -/
def loggerExtract (host : GoStr) : Option (GoStr × GoStr) :=
  let res := hostScan host
  if res.1 = [] then none else some (res.1.take 20, res.2)

/-- Modelled from the spec: the Interaction Codec's compression
(`klauspost/compress/zlib`, a library outside this repository).  The model
keeps zlib's load-bearing properties: a compressed blob is a header-tagged
stream, compression is injective and lossless, and decompression of a blob
that does not carry the header fails. -/
def compress (raw : GoStr) : GoStr := 'z' :: raw

/-- Modelled from the spec: zlib decompression; inverts `compress` and
fails (as `zlib.NewReader` / `Reset` do on a bad header) on any blob that
was not produced by the compressor. -/
def decompress (blob : GoStr) : Option GoStr :=
  match blob with
  | 'z' :: rest => some rest
  | _ => none

/-- Outcome of a Go call that may return a value, return an error, or
crash with a runtime panic (e.g. a nil-pointer dereference). -/
inductive GoResult (α : Type) where
  | ok : α → GoResult α
  | err : String → GoResult α
  | panic : GoResult α
  deriving DecidableEq

/-- `CorrelationData` from `pkg/storage/storage.go` lines 32-39.
`dataMutex` is a `*sync.Mutex` in Go; the `Bool` here records whether that
pointer is non-nil (locking a nil mutex pointer panics). -/
structure CorrelationData where
  Data : List GoStr
  dataMutex : Bool
  token : GoStr
  deriving DecidableEq

/-- The `ccache`-backed map of `Storage`, modelled as an association list
from correlation id to its record (TTL and capacity eviction are not
exercised by any claim). -/
abbrev Storage := List (GoStr × CorrelationData)

/-- `cache.Get`. -/
def cacheGet : Storage → GoStr → Option CorrelationData
  | [], _ => none
  | (k, v) :: rest, key => if k = key then some v else cacheGet rest key

/-- `cache.Set` (overwrite or insert). -/
def cacheSet : Storage → GoStr → CorrelationData → Storage
  | [], key, v => [(key, v)]
  | (k, w) :: rest, key, v =>
    if k = key then (k, v) :: rest else (k, w) :: cacheSet rest key v

/-- `cache.Delete`. -/
def cacheDelete : Storage → GoStr → Storage
  | [], _ => []
  | (k, w) :: rest, key =>
    if k = key then cacheDelete rest key else (k, w) :: cacheDelete rest key

/-- `Storage.SetIDPublicKey` (storage.go lines 101-113): reject a live
session id, otherwise insert a fresh record.  The Go struct literal
`&CorrelationData{Data: ..., token: token}` leaves `dataMutex` as its zero
value `nil`, hence `dataMutex := false` here. -/
def Storage.SetIDPublicKey (s : Storage) (sessionID token : GoStr) : Except String Storage :=
  if (cacheGet s sessionID).isSome then
    Except.error "session-id provided is invalid"
  else
    Except.ok (cacheSet s sessionID ⟨[], false, token⟩)

/-- `Storage.SetID` (storage.go lines 115-122): insert a bucket record;
this path does initialize `dataMutex`. -/
def Storage.SetID (s : Storage) (ID : GoStr) : Except String Storage :=
  Except.ok (cacheSet s ID ⟨[], true, []⟩)

/-- `Storage.AddInteraction` (storage.go lines 126-144): look the session
up, then `value.dataMutex.Lock()` — a panic when the mutex pointer is nil —
and append `string(data)` to `value.Data` (the stored cache value mutates
in place).  No compression or encryption happens on this path: the
`aesEncrypt` call is commented out in the source. -/
def Storage.AddInteraction (s : Storage) (sessionID data : GoStr) : GoResult Storage :=
  match cacheGet s sessionID with
  | none => GoResult.err "could not get session-id from cache"
  | some value =>
    if value.dataMutex then
      GoResult.ok (cacheSet s sessionID { value with Data := value.Data ++ [data] })
    else GoResult.panic

/-- `Storage.AddInteractionWithId` (storage.go lines 147-174): like
`AddInteraction` but the payload is zlib-compressed before the append. -/
def Storage.AddInteractionWithId (s : Storage) (id data : GoStr) : GoResult Storage :=
  match cacheGet s id with
  | none => GoResult.err "could not get session-id from cache"
  | some value =>
    if value.dataMutex then
      GoResult.ok (cacheSet s id { value with Data := value.Data ++ [compress data] })
    else GoResult.panic

/-- The decompression loop of `CorrelationData.GetInteractions`
(storage.go lines 65-89): `results` is pre-sized to `len(data)` with empty
strings; each item that decompresses replaces its position, a failing item
leaves the empty string at its position (`continue`). -/
def decompressLoop : List GoStr → List GoStr
  | [] => []
  | item :: rest =>
    (match decompress item with
      | some r => r
      | none => []) :: decompressLoop rest

/-- `CorrelationData.GetInteractions` (storage.go lines 54-91): lock the
record's mutex (panic when the pointer is nil), swap `Data` for an empty
slice, unlock, then decompress the swapped-out items outside the lock;
an empty log returns the empty slice directly. -/
def CorrelationData.GetInteractions (c : CorrelationData) : GoResult (List GoStr × CorrelationData) :=
  if c.dataMutex then
    let data := c.Data
    let c' : CorrelationData := { c with Data := [] }
    if data.length = 0 then GoResult.ok ([], c')
    else GoResult.ok (decompressLoop data, c')
  else GoResult.panic

/-- `Storage.GetInteractions` (storage.go lines 178-192): look up the
record and drain it.  The secret comparison is commented out in the
source, so `secret` is never consulted; the returned middle component is
the always-empty AES key string. -/
def Storage.GetInteractions (s : Storage) (correlationID secret : GoStr) :
    GoResult (List GoStr × GoStr × Storage) :=
  match cacheGet s correlationID with
  | none => GoResult.err "could not get correlation-id from cache"
  | some value =>
    match value.GetInteractions with
    | GoResult.ok (data, value') => GoResult.ok (data, [], cacheSet s correlationID value')
    | GoResult.err e => GoResult.err e
    | GoResult.panic => GoResult.panic

/-- `Storage.GetInteractionsWithId` (storage.go lines 195-206). -/
def Storage.GetInteractionsWithId (s : Storage) (id : GoStr) :
    GoResult (List GoStr × Storage) :=
  match cacheGet s id with
  | none => GoResult.err "could not get id from cache"
  | some value =>
    match value.GetInteractions with
    | GoResult.ok (data, value') => GoResult.ok (data, cacheSet s id value')
    | GoResult.err e => GoResult.err e
    | GoResult.panic => GoResult.panic

/-- `Storage.RemoveID` (storage.go lines 209-226): look the session up;
the secret comparison is commented out in the source, so `token` is never
consulted; then `value.dataMutex.Lock()` (panic on a nil pointer), clear
`Data`, unlock, and delete the cache entry. -/
def Storage.RemoveID (s : Storage) (sessionID token : GoStr) : GoResult Storage :=
  match cacheGet s sessionID with
  | none => GoResult.err "could not get session-id from cache"
  | some value =>
    if value.dataMutex then
      GoResult.ok (cacheDelete (cacheSet s sessionID { value with Data := [] }) sessionID)
    else GoResult.panic

/-- The fields of `server.Options` consumed by the HTTP auth gate. -/
structure ServerOptions where
  Auth : Bool
  Token : GoStr

/-- `HTTPServer.checkToken` (HTTP server file lines 330-332). -/
def checkToken (opts : ServerOptions) (authHeader : GoStr) : Bool :=
  (!opts.Auth) || (opts.Auth && (opts.Token == authHeader))

/-- `HTTPServer.authMiddleware` (HTTP server file lines 320-328): a failed
token check answers 401 without invoking the wrapped handler; the handler
is modelled as a state transformer on the `Storage` returning a status
code. -/
def authMiddleware (opts : ServerOptions) (next : Storage → Nat × Storage)
    (authHeader : GoStr) (st : Storage) : Nat × Storage :=
  if checkToken opts authHeader then next st else (401, st)

/-- The four routes that `NewHTTPServer` (HTTP server file lines 44-49)
wraps in `authMiddleware`. -/
def authProtectedPaths : List GoStr :=
  ["/register".toList, "/deregister".toList, "/poll".toList, "/metrics".toList]

/-! ### Helper lemmas about the identifier scan -/

theorem scanGo_append (all : List GoStr) (xs ys : List GoStr) (i : Nat) (acc : GoStr × GoStr) :
    scanGo all (xs ++ ys) i acc = scanGo all ys (i + xs.length) (scanGo all xs i acc) := by
  induction xs generalizing i acc with
  | nil => simp [scanGo]
  | cons x t ih =>
    show scanGo all (t ++ ys) (i + 1)
        (if x.length = 33 then
          (x, if i + 1 ≤ all.length then joinDot (all.take (i + 1)) else x)
        else acc) = scanGo all ys (i + (t.length + 1))
        (scanGo all t (i + 1)
          (if x.length = 33 then
            (x, if i + 1 ≤ all.length then joinDot (all.take (i + 1)) else x)
          else acc))
    rw [ih]
    have h1 : i + 1 + t.length = i + (t.length + 1) := by omega
    rw [h1]

theorem scanGo_no33 (all : List GoStr) (l : List GoStr) (i : Nat) (acc : GoStr × GoStr)
    (h : ∀ q ∈ l, q.length ≠ 33) : scanGo all l i acc = acc := by
  induction l generalizing i acc with
  | nil => rfl
  | cons x t ih =>
    have hx : x.length ≠ 33 := h x (by simp)
    simp only [scanGo, if_neg hx]
    exact ih (i + 1) acc fun q hq => h q (by simp [hq])

theorem take_append_len_succ (l₁ : List GoStr) (p : GoStr) (l₂ : List GoStr) :
    (l₁ ++ p :: l₂).take (l₁.length + 1) = l₁ ++ [p] := by
  induction l₁ with
  | nil => simp
  | cons a t ih => simp [List.take_succ_cons, ih]

theorem hostScan_split (host : GoStr) (l₁ : List GoStr) (p : GoStr) (l₂ : List GoStr)
    (hs : splitDot host = l₁ ++ p :: l₂) (hp : p.length = 33)
    (h2 : ∀ q ∈ l₂, q.length ≠ 33) :
    hostScan host = (p, joinDot (l₁ ++ [p])) := by
  have hlen : l₁.length + 1 ≤ (l₁ ++ p :: l₂).length := by
    simp
  unfold hostScan
  rw [hs, scanGo_append, Nat.zero_add]
  simp only [scanGo]
  rw [if_pos hp, if_pos hlen, take_append_len_succ]
  exact scanGo_no33 _ _ _ _ h2

theorem loggerExtract_split (host : GoStr) (l₁ : List GoStr) (p : GoStr) (l₂ : List GoStr)
    (hs : splitDot host = l₁ ++ p :: l₂) (hp : p.length = 33)
    (h2 : ∀ q ∈ l₂, q.length ≠ 33) :
    loggerExtract host = some (p.take 20, joinDot (l₁ ++ [p])) := by
  have hne : p ≠ [] := by
    intro h
    rw [h] at hp
    simp at hp
  simp [loggerExtract, hostScan_split host l₁ p l₂ hs hp h2, hne]

theorem hostScan_none (host : GoStr) (h : ∀ q ∈ splitDot host, q.length ≠ 33) :
    hostScan host = ([], []) :=
  scanGo_no33 _ _ _ _ h

theorem foldl_pick33_no33 (l : List GoStr) (acc : GoStr)
    (h : ∀ q ∈ l, q.length ≠ 33) : l.foldl pick33 acc = acc := by
  induction l generalizing acc with
  | nil => rfl
  | cons x t ih =>
    have hx : x.length ≠ 33 := h x (by simp)
    simp only [List.foldl_cons, pick33, if_neg hx]
    exact ih acc fun q hq => h q (by simp [hq])

theorem urlReflection_split (host : GoStr) (l₁ : List GoStr) (p : GoStr) (l₂ : List GoStr)
    (hs : splitDot host = l₁ ++ p :: l₂) (hp : p.length = 33)
    (h2 : ∀ q ∈ l₂, q.length ≠ 33) :
    URLReflection host = p.reverse := by
  have hne : p ≠ [] := by
    intro h
    rw [h] at hp
    simp at hp
  have hfold : (splitDot host).foldl pick33 [] = p := by
    rw [hs, List.foldl_append, List.foldl_cons]
    simp only [pick33, if_pos hp]
    exact foldl_pick33_no33 l₂ p h2
  simp [URLReflection, hfold, hne]

theorem urlReflection_none (host : GoStr) (h : ∀ q ∈ splitDot host, q.length ≠ 33) :
    URLReflection host = [] := by
  simp [URLReflection, foldl_pick33_no33 _ _ h]

/-! ### Helper lemmas about the store and the codec -/

theorem cacheGet_cacheSet_self (s : Storage) (k : GoStr) (v : CorrelationData) :
    cacheGet (cacheSet s k v) k = some v := by
  induction s with
  | nil => simp [cacheSet, cacheGet]
  | cons hd t ih =>
    obtain ⟨k', w⟩ := hd
    by_cases hk : k' = k
    · simp [cacheSet, cacheGet, hk]
    · simp [cacheSet, cacheGet, hk, ih]

theorem decompressLoop_length (l : List GoStr) :
    (decompressLoop l).length = l.length := by
  induction l with
  | nil => rfl
  | cons x t ih => simp [decompressLoop, ih]

theorem decompressLoop_getD (l : List GoStr) (i : Nat) (h : i < l.length) :
    (decompressLoop l).getD i [] =
      match decompress (l.getD i []) with
      | some r => r
      | none => [] := by
  induction l generalizing i with
  | nil => simp at h
  | cons x t ih =>
    cases i with
    | zero => simp [decompressLoop]
    | succ j =>
      simp only [decompressLoop, List.getD_cons_succ]
      exact ih j (by simpa using h)

theorem getD_set_ne (l : List GoStr) (j : Nat) (v : GoStr) (i : Nat) (hij : i ≠ j) :
    (l.set j v).getD i [] = l.getD i [] := by
  induction l generalizing i j with
  | nil => simp
  | cons x t ih =>
    cases j with
    | zero =>
      cases i with
      | zero => exact absurd rfl hij
      | succ i' => simp [List.set]
    | succ j' =>
      cases i with
      | zero => simp [List.set]
      | succ i' =>
        simp only [List.set, List.getD_cons_succ]
        exact ih j' i' (by omega)

theorem decompressLoop_set_ne (l : List GoStr) (j : Nat) (v : GoStr) (i : Nat)
    (hi : i < l.length) (hij : i ≠ j) :
    (decompressLoop (l.set j v)).getD i [] = (decompressLoop l).getD i [] := by
  rw [decompressLoop_getD _ _ (by simpa using hi), decompressLoop_getD _ _ hi,
    getD_set_ne _ _ _ _ hij]

/-! ### Claim theorems -/

/-- C4 counterexample: for the host `"a"*33 ++ "." ++ "b"*33` (two labels of
length 33) the extraction loop keeps the second label, not the first:
`uniqueID` is the b-run, `correlationID` its first 20 characters and
`fullID` the whole host — refuting the claim that the earliest such label
determines the outputs. -/
theorem loggerExtract_first_label_refuted :
    splitDot (List.replicate 33 'a' ++ '.' :: List.replicate 33 'b')
        = [List.replicate 33 'a', List.replicate 33 'b']
    ∧ (List.replicate 33 'a').length = 33
    ∧ (List.replicate 33 'b').length = 33
    ∧ hostScan (List.replicate 33 'a' ++ '.' :: List.replicate 33 'b')
        = (List.replicate 33 'b', List.replicate 33 'a' ++ '.' :: List.replicate 33 'b')
    ∧ loggerExtract (List.replicate 33 'a' ++ '.' :: List.replicate 33 'b')
        = some (List.replicate 20 'b', List.replicate 33 'a' ++ '.' :: List.replicate 33 'b')
    ∧ List.replicate 33 'b' ≠ List.replicate 33 'a'
    ∧ List.replicate 20 'b' ≠ List.replicate 20 'a' := by
  refine ⟨?_, ?_, ?_, ?_, ?_, ?_, ?_⟩ <;> decide

/-- C4 (amended): identifier extraction scans the dot-separated labels and
the LAST label of length exactly 33 determines the outputs: whenever the
split of the host is `l₁ ++ p :: l₂` with `p` of length 33 and no label of
length 33 after it, the loop yields `uniqueID = p`,
`fullID = join(l₁ ++ [p])` and `correlationID = p.take 20`. -/
theorem loggerExtract_last_match (host : GoStr) (l₁ : List GoStr) (p : GoStr) (l₂ : List GoStr)
    (hs : splitDot host = l₁ ++ p :: l₂) (hp : p.length = 33)
    (h2 : ∀ q ∈ l₂, q.length ≠ 33) :
    hostScan host = (p, joinDot (l₁ ++ [p]))
    ∧ loggerExtract host = some (p.take 20, joinDot (l₁ ++ [p])) :=
  ⟨hostScan_split host l₁ p l₂ hs hp h2, loggerExtract_split host l₁ p l₂ hs hp h2⟩

/-- Witness for the amended C4 theorem at the host `"a"*33 ++ "." ++ "b"*33`. -/
theorem loggerExtract_last_match_witness :
    hostScan (List.replicate 33 'a' ++ '.' :: List.replicate 33 'b')
        = (List.replicate 33 'b', joinDot ([List.replicate 33 'a'] ++ [List.replicate 33 'b']))
    ∧ loggerExtract (List.replicate 33 'a' ++ '.' :: List.replicate 33 'b')
        = some ((List.replicate 33 'b').take 20,
            joinDot ([List.replicate 33 'a'] ++ [List.replicate 33 'b'])) :=
  loggerExtract_last_match (List.replicate 33 'a' ++ '.' :: List.replicate 33 'b')
    [List.replicate 33 'a'] (List.replicate 33 'b') []
    (by decide) (by decide) (by intro q hq; cases hq)

/-- C5: when exactly one label of the host has length 33, extraction yields
`correlationID = p.take 20` and `fullID = join` of all labels up to and
including `p`; when no label has length 33 the scan leaves both outputs
empty and nothing is extracted. -/
theorem loggerExtract_unique_or_none :
    (∀ (host : GoStr) (l₁ : List GoStr) (p : GoStr) (l₂ : List GoStr),
        splitDot host = l₁ ++ p :: l₂ → p.length = 33 →
        (∀ q ∈ l₁, q.length ≠ 33) → (∀ q ∈ l₂, q.length ≠ 33) →
        loggerExtract host = some (p.take 20, joinDot (l₁ ++ [p])))
    ∧ (∀ host : GoStr, (∀ q ∈ splitDot host, q.length ≠ 33) →
        hostScan host = ([], []) ∧ loggerExtract host = none) := by
  constructor
  · intro host l₁ p l₂ hs hp _ h2
    exact loggerExtract_split host l₁ p l₂ hs hp h2
  · intro host h
    have h0 := hostScan_none host h
    exact ⟨h0, by simp [loggerExtract, h0]⟩

/-- Witness for C5: host `"a"*33 ++ ".example.com"` extracts
`(replicate 20 'a', "a"*33)`; host `"example.com"` extracts nothing. -/
theorem loggerExtract_unique_or_none_witness :
    loggerExtract (List.replicate 33 'a' ++ ".example.com".toList)
        = some (List.replicate 20 'a', List.replicate 33 'a')
    ∧ hostScan ("example.com".toList) = ([], [])
    ∧ loggerExtract ("example.com".toList) = none := by
  refine ⟨?_, ?_, ?_⟩
  · exact loggerExtract_unique_or_none.1 (List.replicate 33 'a' ++ ".example.com".toList)
      [] (List.replicate 33 'a') ["example".toList, "com".toList]
      (by decide) (by decide) (by decide) (by decide)
  · exact (loggerExtract_unique_or_none.2 ("example.com".toList) (by decide)).1
  · exact (loggerExtract_unique_or_none.2 ("example.com".toList) (by decide)).2

/-- C6: `URLReflection` returns the last label of length exactly 33 with
its characters reversed, and the empty string when no label of length 33
exists. -/
theorem urlReflection_contract :
    (∀ (host : GoStr) (l₁ : List GoStr) (p : GoStr) (l₂ : List GoStr),
        splitDot host = l₁ ++ p :: l₂ → p.length = 33 →
        (∀ q ∈ l₂, q.length ≠ 33) →
        URLReflection host = p.reverse)
    ∧ (∀ host : GoStr, (∀ q ∈ splitDot host, q.length ≠ 33) →
        URLReflection host = []) :=
  ⟨fun host l₁ p l₂ hs hp h2 => urlReflection_split host l₁ p l₂ hs hp h2,
   fun host h => urlReflection_none host h⟩

/-- Witness for C6: a host with label `'d' :: "c"*32` reflects to
`"c"*32 ++ "d"`, and `"example.com"` reflects to the empty string. -/
theorem urlReflection_contract_witness :
    URLReflection ("x.".toList ++ 'd' :: List.replicate 32 'c')
        = List.replicate 32 'c' ++ ['d']
    ∧ URLReflection ("example.com".toList) = [] := by
  constructor
  · have h := urlReflection_contract.1 ("x.".toList ++ 'd' :: List.replicate 32 'c')
      ["x".toList] ('d' :: List.replicate 32 'c') []
      (by decide) (by decide) (by intro q hq; cases hq)
    simpa using h
  · exact urlReflection_contract.2 ("example.com".toList) (by decide)

/-- C7: `SetIDPublicKey` fails exactly when the session id is already live:
on a fresh id it succeeds and stores a record with an empty log and the
given secret; on a live id it returns the error. -/
theorem setIDPublicKey_contract (s : Storage) (id tok : GoStr) :
    (cacheGet s id = none →
        Storage.SetIDPublicKey s id tok = Except.ok (cacheSet s id ⟨[], false, tok⟩)
        ∧ cacheGet (cacheSet s id ⟨[], false, tok⟩) id = some ⟨[], false, tok⟩)
    ∧ ((cacheGet s id).isSome = true →
        Storage.SetIDPublicKey s id tok = Except.error "session-id provided is invalid") := by
  constructor
  · intro h
    exact ⟨by simp [Storage.SetIDPublicKey, h], cacheGet_cacheSet_self s id ⟨[], false, tok⟩⟩
  · intro h
    simp [Storage.SetIDPublicKey, h]

/-- Witness for C7: a fresh registration succeeds and creates the record;
repeating it on the now-live id is rejected. -/
theorem setIDPublicKey_contract_witness :
    Storage.SetIDPublicKey [] ("sid-c7".toList) ("sec-c7".toList)
        = Except.ok [(("sid-c7".toList), ⟨[], false, ("sec-c7".toList)⟩)]
    ∧ Storage.SetIDPublicKey [(("sid-c7".toList), ⟨[], false, ("sec-c7".toList)⟩)]
        ("sid-c7".toList) ("sec-c7".toList)
        = Except.error "session-id provided is invalid" :=
  ⟨((setIDPublicKey_contract [] ("sid-c7".toList) ("sec-c7".toList)).1 rfl).1,
   (setIDPublicKey_contract [(("sid-c7".toList), ⟨[], false, ("sec-c7".toList)⟩)]
      ("sid-c7".toList) ("sec-c7".toList)).2 rfl⟩

/-- C9: the drain's batch decompression is per-item best-effort — for a
record whose mutex is initialized, the drained result has exactly the
length of the stored sequence, each position holds the decompression of
its own blob (the empty string when that blob fails to decompress), and
corrupting one position does not change any other position. -/
theorem getInteractions_per_item (c : CorrelationData) (h : c.dataMutex = true) :
    c.GetInteractions = GoResult.ok (decompressLoop c.Data, { c with Data := [] })
    ∧ (decompressLoop c.Data).length = c.Data.length
    ∧ (∀ i, i < c.Data.length →
        (decompressLoop c.Data).getD i [] =
          match decompress (c.Data.getD i []) with
          | some r => r
          | none => [])
    ∧ (∀ j v i, i < c.Data.length → i ≠ j →
        (decompressLoop (c.Data.set j v)).getD i [] = (decompressLoop c.Data).getD i []) := by
  refine ⟨?_, decompressLoop_length _, fun i hi => decompressLoop_getD _ i hi,
    fun j v i hi hij => decompressLoop_set_ne _ j v i hi hij⟩
  by_cases hlen : c.Data.length = 0
  · have hd : c.Data = [] := List.length_eq_zero.mp hlen
    simp [CorrelationData.GetInteractions, h, hd, decompressLoop]
  · simp [CorrelationData.GetInteractions, h, hlen]

/-- Witness for C9: a log holding a good blob, a corrupt blob and another
good blob drains to the two payloads with an empty string in the middle. -/
theorem getInteractions_per_item_witness :
    CorrelationData.GetInteractions
        ⟨[compress ("hi".toList), "bad".toList, compress ("yo".toList)], true, ("s".toList)⟩
        = GoResult.ok (["hi".toList, [], "yo".toList],
            ⟨[], true, ("s".toList)⟩) :=
  (getInteractions_per_item
    ⟨[compress ("hi".toList), "bad".toList, compress ("yo".toList)], true, ("s".toList)⟩ rfl).1

/-- C10: on the auth-protected routes, when `Options.Auth` is set and the
Authorization header differs from the configured token the middleware
answers 401 and leaves the storage untouched; when `Options.Auth` is unset
the wrapped handler runs regardless of the header. -/
theorem authMiddleware_gate (opts : ServerOptions) (next : Storage → Nat × Storage)
    (authHeader : GoStr) (st : Storage) (path : GoStr)
    (hpath : path ∈ authProtectedPaths) :
    (opts.Auth = true → opts.Token ≠ authHeader →
        authMiddleware opts next authHeader st = (401, st))
    ∧ (opts.Auth = false → authMiddleware opts next authHeader st = next st) := by
  constructor
  · intro hauth hne
    have hbeq : (opts.Token == authHeader) = false := beq_eq_false_iff_ne.mpr hne
    simp [authMiddleware, checkToken, hauth, hbeq]
  · intro hauth
    simp [authMiddleware, checkToken, hauth]

/-- Handler probe used by the C10 witness: answers 200 and inserts a
record, so that the 401 path visibly leaves the storage unchanged. -/
def nextProbe : Storage → Nat × Storage :=
  fun st => (200, cacheSet st ("probe".toList) ⟨[], true, []⟩)

/-- Witness for C10 on the `/poll` and `/register` routes with token
`"tok"` and header `"bad"`. -/
theorem authMiddleware_gate_witness :
    authMiddleware ⟨true, "tok".toList⟩ nextProbe ("bad".toList) [] = (401, [])
    ∧ authMiddleware ⟨false, "tok".toList⟩ nextProbe ("bad".toList) [] = nextProbe [] :=
  ⟨(authMiddleware_gate ⟨true, "tok".toList⟩ nextProbe ("bad".toList) [] ("/poll".toList)
      (by decide)).1 rfl (by decide),
   (authMiddleware_gate ⟨false, "tok".toList⟩ nextProbe ("bad".toList) [] ("/register".toList)
      (by decide)).2 rfl⟩

/-- C1 failing evaluation: the append/drain round trip does not hold.
For a session created by `SetIDPublicKey`, `AddInteraction` panics on the
nil `dataMutex` before storing anything; and even against a record whose
mutex is initialized (the `SetID` path), `AddInteraction` appends the raw
payload without compressing it, so the drain's per-item zlib decompression
fails and the single drained element is the empty string, not the
payload. -/
theorem addInteraction_roundtrip_refuted :
    Storage.SetIDPublicKey [] ("sid-c1".toList) ("sec-c1".toList)
        = Except.ok [(("sid-c1".toList), ⟨[], false, ("sec-c1".toList)⟩)]
    ∧ Storage.AddInteraction [(("sid-c1".toList), ⟨[], false, ("sec-c1".toList)⟩)]
        ("sid-c1".toList) ("payload-c1".toList) = GoResult.panic
    ∧ Storage.AddInteraction [(("bkt-c1".toList), ⟨[], true, []⟩)]
        ("bkt-c1".toList) ("hello".toList)
        = GoResult.ok [(("bkt-c1".toList), ⟨[("hello".toList)], true, []⟩)]
    ∧ ("hello".toList : GoStr) ≠ compress ("hello".toList)
    ∧ Storage.GetInteractionsWithId [(("bkt-c1".toList), ⟨[("hello".toList)], true, []⟩)]
        ("bkt-c1".toList)
        = GoResult.ok ([([] : GoStr)], [(("bkt-c1".toList), ⟨[], true, []⟩)])
    ∧ ([] : GoStr) ≠ ("hello".toList : GoStr) :=
  ⟨rfl, rfl, rfl, by decide, rfl, by decide⟩

/-- C2 failing evaluation: a session created by `SetIDPublicKey` carries a
nil `dataMutex`, so the very next `AddInteraction` against it dereferences
the nil mutex pointer and panics instead of returning ok or an error. -/
theorem addInteraction_after_register_panics :
    Storage.SetIDPublicKey [] ("sid-c2".toList) ("sec-c2".toList)
        = Except.ok [(("sid-c2".toList), ⟨[], false, ("sec-c2".toList)⟩)]
    ∧ Storage.AddInteraction [(("sid-c2".toList), ⟨[], false, ("sec-c2".toList)⟩)]
        ("sid-c2".toList) ("hello".toList) = GoResult.panic :=
  ⟨rfl, rfl⟩

/-- C3 failing evaluation: `RemoveID` never consults the supplied secret
(the comparison is commented out in the source).  On a registered session
it panics on the nil mutex instead of returning a mismatch error, and on a
record whose mutex is initialized a mismatched secret (`"wrong"` against
the stored empty token) deletes the record anyway and reports success. -/
theorem removeID_ignores_secret :
    Storage.SetIDPublicKey [] ("sid-c3".toList) ("sec-c3".toList)
        = Except.ok [(("sid-c3".toList), ⟨[], false, ("sec-c3".toList)⟩)]
    ∧ Storage.RemoveID [(("sid-c3".toList), ⟨[], false, ("sec-c3".toList)⟩)]
        ("sid-c3".toList) ("wrong".toList) = GoResult.panic
    ∧ Storage.SetID [] ("bkt-c3".toList) = Except.ok [(("bkt-c3".toList), ⟨[], true, []⟩)]
    ∧ ("wrong".toList : GoStr) ≠ ([] : GoStr)
    ∧ Storage.RemoveID [(("bkt-c3".toList), ⟨[], true, []⟩)] ("bkt-c3".toList) ("wrong".toList)
        = GoResult.ok []
    ∧ cacheGet ([] : Storage) ("bkt-c3".toList) = none :=
  ⟨rfl, rfl, rfl, by decide, rfl, rfl⟩

/-- C8 failing evaluation: draining a session created by `SetIDPublicKey`
panics on the nil `dataMutex` (inside `CorrelationData.GetInteractions`)
instead of returning the empty sequence and keeping the record intact. -/
theorem drain_after_register_panics :
    Storage.SetIDPublicKey [] ("sid-c8".toList) ("sec-c8".toList)
        = Except.ok [(("sid-c8".toList), ⟨[], false, ("sec-c8".toList)⟩)]
    ∧ Storage.GetInteractions [(("sid-c8".toList), ⟨[], false, ("sec-c8".toList)⟩)]
        ("sid-c8".toList) ("sec-c8".toList) = GoResult.panic :=
  ⟨rfl, rfl⟩
